import Mathlib

/-!
Verification model of the Goldenia wallet backend (Express + PostgreSQL, one file).

Shallow embedding notes:
* The PostgreSQL state (users, wallets, transactions tables) is a `Db` record;
  a request handler is a pure function `Db → inputs → Except WErr Db`.  A
  successful handler returns the committed post-state; an error models the
  `ROLLBACK` path (no partial writes survive, matching the single BEGIN/COMMIT
  unit of work per handler).
* `NUMERIC(18,8)` column values are exactly the integer multiples of 10^-8 with
  fewer than 19 significant digits, so wallet balances are modelled as the scaled
  integer `balance * 10^8 : Int`, manipulated exactly.
* JavaScript numbers are IEEE-754 binary64.  The code parses the stored decimal
  strings and the request amounts with `parseFloat`, adds or subtracts them as
  doubles, and re-serialises with `toFixed(8)`.  We model a binary64 value by the
  exact rational it denotes (`Frac`, an unnormalised fraction of `Int`s), and
  `toDouble` below is IEEE round-to-nearest-even onto the binary64 grid
  (normal and subnormal range; callers check the overflow threshold 2^1024).
* Side values generated at run time (the v4 UUIDs used as row ids) are passed to
  the modelled handlers as explicit arguments.
-/

/-- Unnormalised fraction `num / den` of integers; every constructor used in this
development keeps `den > 0`.  Used instead of `ℚ` so that all arithmetic reduces
to kernel-accelerated `Int` operations. -/
structure Frac where
  num : Int
  den : Int
  deriving DecidableEq, Repr

/-- Embed an integer. -/
def Frac.ofInt (n : Int) : Frac := ⟨n, 1⟩

/-- Exact sum. -/
def Frac.add (a b : Frac) : Frac := ⟨a.num * b.den + b.num * a.den, a.den * b.den⟩

/-- Exact difference. -/
def Frac.sub (a b : Frac) : Frac := ⟨a.num * b.den - b.num * a.den, a.den * b.den⟩

/-- Exact product. -/
def Frac.mul (a b : Frac) : Frac := ⟨a.num * b.num, a.den * b.den⟩

/-- Negation. -/
def Frac.neg (a : Frac) : Frac := ⟨-a.num, a.den⟩

/-- Value-level strict order (valid for positive denominators). -/
def Frac.blt (a b : Frac) : Bool := a.num * b.den < b.num * a.den

/-- Value-level order (valid for positive denominators). -/
def Frac.ble (a b : Frac) : Bool := a.num * b.den ≤ b.num * a.den

/-- Value-level equality test (valid for positive denominators). -/
def Frac.beqv (a b : Frac) : Bool := a.num * b.den == b.num * a.den

/-- Floor of the fraction (for `den > 0`; `Int` division in this toolchain is
floor division for a positive divisor). -/
def Frac.floor (q : Frac) : Int := q.num / q.den

/-- Round to the nearest integer, ties to the even integer (for `den > 0`).
This is the IEEE-754 mantissa rounding used by binary64 arithmetic. -/
def Frac.rte (q : Frac) : Int :=
  let f := q.num / q.den
  let r2 := 2 * (q.num - f * q.den)
  if r2 < q.den then f
  else if q.den < r2 then f + 1
  else if f % 2 = 0 then f else f + 1

/-- `2 ^ n` as an `Int`, computed through the kernel-accelerated `Nat` power. -/
def pow2Int (n : Nat) : Int := ((2 ^ n : Nat) : Int)

/-- `10 ^ n` as an `Int`, computed through the kernel-accelerated `Nat` power. -/
def pow10Int (n : Nat) : Int := ((10 ^ n : Nat) : Int)

/-- Fuel-driven binary logarithm on `Nat` (structural recursion so the kernel
can evaluate it; 1200 units of fuel cover every magnitude reachable here). -/
def log2Fuel : Nat → Nat → Nat
  | 0, _ => 0
  | fuel+1, n => if 2 ≤ n then log2Fuel fuel (n / 2) + 1 else 0

/-- Binary logarithm: for `n ≥ 1`, the unique `k` with `2^k ≤ n < 2^(k+1)`. -/
def natLog2 (n : Nat) : Nat := log2Fuel 1200 n

/-- For a positive fraction `q`, the unique `e` with `2^e ≤ q < 2^(e+1)`
(the binade of `q`), computed from the binades of numerator and denominator. -/
def floorLog2F (q : Frac) : Int :=
  let e0 : Int := (natLog2 q.num.natAbs : Int) - (natLog2 q.den.natAbs : Int)
  if 0 ≤ e0 then
    (if Frac.ble ⟨pow2Int e0.toNat, 1⟩ q then e0 else e0 - 1)
  else
    (if Frac.ble ⟨1, pow2Int (-e0).toNat⟩ q then e0 else e0 - 1)

/-- Round a positive fraction to the nearest binary64 value (round to nearest,
ties to even), covering normal and subnormal magnitudes; the caller compares
against `2^1024` for the overflow-to-infinity threshold. -/
def rnPos (q : Frac) : Frac :=
  let e := max (floorLog2F q) (-1022)
  let k := 52 - e
  if 0 ≤ k then
    ⟨Frac.rte ⟨q.num * pow2Int k.toNat, q.den⟩, pow2Int k.toNat⟩
  else
    ⟨Frac.rte ⟨q.num, q.den * pow2Int (-k).toNat⟩ * pow2Int (-k).toNat, 1⟩

/-- Round an exact rational to the binary64 grid (IEEE round-to-nearest-even).
This is what `parseFloat` does to a decimal literal and what each binary64
arithmetic operation does to the exact result of the operation. -/
def toDouble (q : Frac) : Frac :=
  if q.num = 0 then ⟨0, 1⟩
  else if 0 < q.num then rnPos q
  else Frac.neg (rnPos (Frac.neg q))

/-- Binary64 addition: round the exact sum (both operands being binary64). -/
def jsAdd (a b : Frac) : Frac := toDouble (Frac.add a b)

/-- Binary64 subtraction: round the exact difference. -/
def jsSub (a b : Frac) : Frac := toDouble (Frac.sub a b)

/-- Model of `x.toFixed(8)` followed by storage in a `NUMERIC(18,8)` column:
the resulting column value, scaled by 10^8.  ECMAScript `toFixed` picks the
integer `n` minimising `|n / 10^8 - x|`, the larger `n` on ties, i.e.
`⌊x * 10^8 + 1/2⌋`. -/
def fix8 (x : Frac) : Int := Frac.floor ⟨2 * (x.num * 100000000) + x.den, 2 * x.den⟩

/-- JavaScript number as produced by `parseFloat`: NaN, an infinity, or a finite
binary64 value (represented by the exact rational it denotes). -/
inductive JSNum where
  | nan
  | posInf
  | negInf
  | fin (q : Frac)
  deriving DecidableEq, Repr

/-- The finite value carried by a `JSNum` (0 for the non-finite cases; only used
behind an `isValidAmount` guard, which excludes those cases). -/
def JSNum.toFrac : JSNum → Frac
  | .fin q => q
  | _ => ⟨0, 1⟩

/-- Decimal digits to a natural number. -/
def digitsToNat (ds : List Char) : Nat := ds.foldl (fun n c => 10 * n + (c.toNat - 48)) 0

/-- Exponent digits after `e`/`E` and an optional sign; empty digits mean the
exponent part is not consumed, i.e. exponent 0. -/
def expDigits (r : List Char) : Int := (digitsToNat (r.takeWhile Char.isDigit) : Int)

/-- Signed exponent digits. -/
def parseExpPart : List Char → Int
  | '+' :: r => expDigits r
  | '-' :: r => -(expDigits r)
  | r => expDigits r

/-- Optional exponent part of a JavaScript decimal literal. -/
def parseExp : List Char → Int
  | 'e' :: rest => parseExpPart rest
  | 'E' :: rest => parseExpPart rest
  | _ => 0

/-- Unsigned part of `parseFloat`: `Infinity`, or the longest prefix of decimal
digits, optional dot, fraction digits and exponent; NaN when no digits occur. -/
def parseUnsigned (sgn : Int) (cs : List Char) : JSNum :=
  if cs.take 8 = ("Infinity").data then (if 0 < sgn then .posInf else .negInf)
  else
    let ip := cs.takeWhile Char.isDigit
    let rest1 := cs.dropWhile Char.isDigit
    let fpRest :=
      match rest1 with
      | '.' :: r => (r.takeWhile Char.isDigit, r.dropWhile Char.isDigit)
      | _ => ([], rest1)
    let fp := fpRest.1
    if ip.isEmpty && fp.isEmpty then .nan
    else
      let e := parseExp fpRest.2
      let baseNum : Int := sgn * ((digitsToNat ip : Int) * pow10Int fp.length + (digitsToNat fp : Int))
      let value : Frac :=
        if 0 ≤ e then ⟨baseNum * pow10Int e.toNat, pow10Int fp.length⟩
        else ⟨baseNum, pow10Int fp.length * pow10Int (-e).toNat⟩
      let d := toDouble value
      if Frac.ble ⟨pow2Int 1024, 1⟩ d then .posInf
      else if Frac.ble d ⟨-(pow2Int 1024), 1⟩ then .negInf
      else .fin d

/-- Model of JavaScript `parseFloat` on a string: skip leading whitespace, an
optional sign, then the longest valid decimal-literal prefix (trailing garbage
is ignored); NaN when no prefix parses. -/
def parseFloatJS (s : String) : JSNum :=
  let cs := s.data.dropWhile (fun c => c == ' ' || c == '\t' || c == '\n' || c == '\r')
  match cs with
  | '+' :: rest => parseUnsigned 1 rest
  | '-' :: rest => parseUnsigned (-1) rest
  | _ => parseUnsigned 1 cs

/-- `isValidAmount` from the source: `!isNaN(amount) && amount > 0 && Number.isFinite(amount)`. -/
def isValidAmount : JSNum → Bool
  | .fin q => 0 < q.num
  | _ => false

/-- `isValidCurrency` from the source: `['USD', 'GOLD'].includes(currency)`. -/
def isValidCurrency (currency : String) : Bool := (["USD", "GOLD"]).contains currency

/-- Hexadecimal digit, either case. -/
def isHexChar (c : Char) : Bool :=
  (48 ≤ c.toNat && c.toNat ≤ 57) || (97 ≤ c.toNat && c.toNat ≤ 102) || (65 ≤ c.toNat && c.toNat ≤ 70)

/-- A 36-character `8-4-4-4-12` shape whose dashes sit at positions 8, 13, 18
and 23 and whose other positions satisfy `special`. -/
def uuidShape (special : Nat → Char → Bool) (cs : List Char) : Bool :=
  cs.length == 36 &&
    cs.enum.all (fun p =>
      if p.1 == 8 || p.1 == 13 || p.1 == 18 || p.1 == 23 then p.2 == '-'
      else special p.1 p.2)

/-- `isValidUUID` from the source, i.e. `validate` of the `uuid` npm package:
the RFC pattern (version digit 1-8, variant nibble `[89ab]`, case-insensitive
hex), the nil UUID, or the max UUID. -/
def isValidUUID (s : String) : Bool :=
  uuidShape
    (fun i c =>
      if i == 14 then 49 ≤ c.toNat && c.toNat ≤ 56
      else if i == 19 then c == '8' || c == '9' || c == 'a' || c == 'b' || c == 'A' || c == 'B'
      else isHexChar c) s.data
  || uuidShape (fun _ c => c == '0') s.data
  || uuidShape (fun _ c => c == 'f' || c == 'F') s.data

/-- JavaScript falsiness of an optional request-body string (`undefined`,
`null` and the empty string are the falsy cases arising here). -/
def falsy : Option String → Bool
  | none => true
  | some s => s == ""

/-- `s.substring(0, 8)` for the ASCII ids used here. -/
def substr8 (s : String) : String := String.mk (s.data.take 8)

/-- Lexicographic comparison of character lists by code point; this is how
JavaScript compares strings (by UTF-16 code units, which agrees with code
points on the ASCII ids compared here). -/
def lexLe : List Char → List Char → Bool
  | [], _ => true
  | _ :: _, [] => false
  | a :: as, b :: bs =>
    if a.toNat < b.toNat then true
    else if b.toNat < a.toNat then false
    else lexLe as bs

/-- `[fromWalletId, toWalletId].sort()` from the transfer handler: the two ids
in ascending string order. -/
def sortIds (a b : String) : List String := if lexLe a.data b.data then [a, b] else [b, a]

/-- Row of the `wallets` table.  `balance` is the `NUMERIC(18,8)` column value
scaled by 10^8 (an exact integer). -/
structure Wallet where
  id : String
  userId : String
  currency : String
  balance : Int
  deriving DecidableEq, Repr

/-- Row of the `transactions` table.  `amount` is the binary64 value the handler
recorded via `amountNum.toString()`. -/
structure Txn where
  id : String
  walletId : String
  type : String
  amount : Frac
  reference : String
  deriving DecidableEq, Repr

/-- Database state: `users` (their ids), `wallets` and `transactions` tables. -/
structure Db where
  users : List String
  wallets : List Wallet
  txns : List Txn
  deriving DecidableEq, Repr

/-- `WalletError` from the source: an HTTP status code and a message. -/
structure WErr where
  statusCode : Nat
  message : String
  deriving DecidableEq, Repr

/-- `UPDATE wallets SET balance = $1 WHERE id = $2`. -/
def setBalance (ws : List Wallet) (id : String) (nb : Int) : List Wallet :=
  ws.map (fun w => if w.id == id then { w with balance := nb } else w)

/-- The `wallets` schema constraints on a stored balance: `CHECK (balance >= 0)`
and the `NUMERIC(18,8)` field width (integer part below 10^10).  A violating
`UPDATE` raises a database error, which the handler's catch-all turns into a
500 response after `ROLLBACK`. -/
def numericOk (b : Int) : Bool := 0 ≤ b && b < 1000000000000000000

/-- `parseFloat(wallet.balance)`: the stored decimal rendered at 8 fractional
digits, read back as a binary64. -/
def balToDouble (b : Int) : Frac := toDouble ⟨b, 100000000⟩

/-- POST `/wallets` (create wallet).  `walletId` stands for the generated
`uuidv4()`. -/
def createWallet (db : Db) (userId currency : Option String) (walletId : String) :
    Except WErr Db :=
  if falsy userId then .error ⟨400, "User ID is required"⟩
  else
    let u := userId.getD ("")
    if !isValidUUID u then .error ⟨400, "Invalid user ID format"⟩
    else if falsy currency then .error ⟨400, "Currency is required"⟩
    else
      let c := currency.getD ("")
      if !isValidCurrency c then .error ⟨400, "Currency must be USD or GOLD"⟩
      else if !db.users.contains u then .error ⟨404, "User not found"⟩
      else if db.wallets.any (fun w => w.userId == u && w.currency == c) then
        .error ⟨409, "User already has a " ++ c ++ " wallet"⟩
      else .ok { db with wallets := db.wallets ++ [⟨walletId, u, c, 0⟩] }

/-- POST `/wallets/:id/deposit`.  `txid` stands for the generated `uuidv4()`;
an `.error` result is the `ROLLBACK` path. -/
def deposit (db : Db) (id : String) (amount : Option String) (txid : String) :
    Except WErr Db :=
  if !isValidUUID id then .error ⟨400, "Invalid wallet ID format"⟩
  else
    match amount with
    | none => .error ⟨400, "Amount is required"⟩
    | some amtStr =>
      let amountNum := parseFloatJS amtStr
      if !isValidAmount amountNum then .error ⟨400, "Amount must be a positive number"⟩
      else
        match db.wallets.find? (fun w => w.id == id) with
        | none => .error ⟨404, "Wallet not found"⟩
        | some wallet =>
          let a := amountNum.toFrac
          let newBalance := fix8 (jsAdd (balToDouble wallet.balance) a)
          if !numericOk newBalance then .error ⟨500, "Internal server error"⟩
          else .ok { db with
            wallets := setBalance db.wallets id newBalance,
            txns := db.txns ++ [⟨txid, id, "deposit", a, "DEPOSIT-" ++ substr8 txid⟩] }

/-- POST `/wallets/:id/withdraw`.  `txid` stands for the generated `uuidv4()`. -/
def withdraw (db : Db) (id : String) (amount : Option String) (txid : String) :
    Except WErr Db :=
  if !isValidUUID id then .error ⟨400, "Invalid wallet ID format"⟩
  else
    match amount with
    | none => .error ⟨400, "Amount is required"⟩
    | some amtStr =>
      let amountNum := parseFloatJS amtStr
      if !isValidAmount amountNum then .error ⟨400, "Amount must be a positive number"⟩
      else
        match db.wallets.find? (fun w => w.id == id) with
        | none => .error ⟨404, "Wallet not found"⟩
        | some wallet =>
          let a := amountNum.toFrac
          let currentBalance := balToDouble wallet.balance
          if Frac.blt currentBalance a then .error ⟨400, "Insufficient balance"⟩
          else
            let newBalance := fix8 (jsSub currentBalance a)
            if !numericOk newBalance then .error ⟨500, "Internal server error"⟩
            else .ok { db with
              wallets := setBalance db.wallets id newBalance,
              txns := db.txns ++ [⟨txid, id, "withdraw", a, "WITHDRAW-" ++ substr8 txid⟩] }

/-- POST `/wallets/transfer`.  `debitId`/`creditId` stand for the two generated
`uuidv4()` values; the shared reference is built from `debitId`. -/
def transfer (db : Db) (fromWalletId toWalletId amount : Option String)
    (debitId creditId : String) : Except WErr Db :=
  if falsy fromWalletId || falsy toWalletId then
    .error ⟨400, "Both wallet IDs are required"⟩
  else
    let f := fromWalletId.getD ("")
    let t := toWalletId.getD ("")
    if !isValidUUID f || !isValidUUID t then .error ⟨400, "Invalid wallet ID format"⟩
    else if f == t then .error ⟨400, "Cannot transfer to the same wallet"⟩
    else
      match amount with
      | none => .error ⟨400, "Amount is required"⟩
      | some amtStr =>
        let amountNum := parseFloatJS amtStr
        if !isValidAmount amountNum then .error ⟨400, "Amount must be a positive number"⟩
        else
          let rows := (sortIds f t).filterMap (fun i => db.wallets.find? (fun w => w.id == i))
          if rows.length != 2 then .error ⟨404, "One or both wallets not found"⟩
          else
            match rows.find? (fun w => w.id == f), rows.find? (fun w => w.id == t) with
            | some fromWallet, some toWallet =>
              if fromWallet.currency != toWallet.currency then
                .error ⟨400, "Cannot transfer between different currencies"⟩
              else
                let a := amountNum.toFrac
                let fromBalance := balToDouble fromWallet.balance
                if Frac.blt fromBalance a then .error ⟨400, "Insufficient balance"⟩
                else
                  let newFromBalance := fix8 (jsSub fromBalance a)
                  let newToBalance := fix8 (jsAdd (balToDouble toWallet.balance) a)
                  if !numericOk newFromBalance then .error ⟨500, "Internal server error"⟩
                  else if !numericOk newToBalance then .error ⟨500, "Internal server error"⟩
                  else
                    let reference := "TRANSFER-" ++ substr8 debitId
                    .ok { db with
                      wallets := setBalance (setBalance db.wallets f newFromBalance) t newToBalance,
                      txns := db.txns ++
                        [⟨debitId, f, "transfer_debit", a, reference⟩,
                         ⟨creditId, t, "transfer_credit", a, reference⟩] }
            | _, _ => .error ⟨404, "One or both wallets not found"⟩

/-- Decidable equality of handler results. -/
instance {ε α : Type} [DecidableEq ε] [DecidableEq α] : DecidableEq (Except ε α) := fun a b =>
  match a, b with
  | .ok x, .ok y =>
    if h : x = y then isTrue (by rw [h]) else isFalse (fun hc => h (Except.ok.inj hc))
  | .error x, .error y =>
    if h : x = y then isTrue (by rw [h]) else isFalse (fun hc => h (Except.error.inj hc))
  | .ok _, .error _ => isFalse (fun hc => Except.noConfusion hc)
  | .error _, .ok _ => isFalse (fun hc => Except.noConfusion hc)

/-- All stored balances are non-negative (the invariant of the `wallets` table). -/
def walletsNonneg (db : Db) : Bool := db.wallets.all (fun w => 0 ≤ w.balance)

/-- Sample user id (a syntactically valid v4 UUID). -/
def uidA : String := "11111111-1111-4111-8111-111111111111"

/-- Sample user id not registered in the states below. -/
def uidB : String := "77777777-7777-4777-8777-777777777777"

/-- Sample wallet id. -/
def widA : String := "22222222-2222-4222-8222-222222222222"

/-- Sample wallet id. -/
def widB : String := "33333333-3333-4333-8333-333333333333"

/-- Sample wallet id. -/
def widC : String := "44444444-4444-4444-8444-444444444444"

/-- Sample generated transaction id. -/
def tidA : String := "55555555-5555-4555-8555-555555555555"

/-- Sample generated transaction id. -/
def tidB : String := "66666666-6666-4666-8666-666666666666"

/-- State with a wallet holding 1000000000.00000000 USD. -/
def dbOne : Db := ⟨[uidA], [⟨widA, uidA, "USD", 100000000000000000⟩], []⟩

/-- State with wallets holding 1000000000.00000000 USD and 0 USD. -/
def dbBig : Db := ⟨[uidA], [⟨widA, uidA, "USD", 100000000000000000⟩, ⟨widB, uidA, "USD", 0⟩], []⟩

/-- State with one empty USD wallet. -/
def dbZero : Db := ⟨[uidA], [⟨widA, uidA, "USD", 0⟩], []⟩

/-- State with a wallet holding 0.00000001 USD (one NUMERIC(18,8) quantum). -/
def dbTiny : Db := ⟨[uidA], [⟨widA, uidA, "USD", 1⟩], []⟩

/-- State with a 50.00000000 USD wallet and a 0 GOLD wallet. -/
def dbMix : Db := ⟨[uidA], [⟨widA, uidA, "USD", 5000000000⟩, ⟨widB, uidA, "GOLD", 0⟩], []⟩

/-- State with 50.00000000 USD and 5.00000000 USD wallets. -/
def dbPair : Db := ⟨[uidA], [⟨widA, uidA, "USD", 5000000000⟩, ⟨widC, uidA, "USD", 500000000⟩], []⟩

/-- Committed state of `transfer dbPair widA widC "20"`: 30 USD / 25 USD and
the debit/credit pair. -/
def dbPairPost : Db :=
  ⟨[uidA],
   [⟨widA, uidA, "USD", 3000000000⟩, ⟨widC, uidA, "USD", 2500000000⟩],
   [⟨tidA, widA, "transfer_debit", ⟨5629499534213120, 281474976710656⟩, "TRANSFER-55555555"⟩,
    ⟨tidB, widC, "transfer_credit", ⟨5629499534213120, 281474976710656⟩, "TRANSFER-55555555"⟩]⟩

/-- Committed state of `withdraw dbPair widA "10"`: 40 USD / 5 USD plus the
withdraw record. -/
def dbPairW : Db :=
  ⟨[uidA],
   [⟨widA, uidA, "USD", 4000000000⟩, ⟨widC, uidA, "USD", 500000000⟩],
   [⟨tidA, widA, "withdraw", ⟨5629499534213120, 562949953421312⟩, "WITHDRAW-55555555"⟩]⟩

/-- State for the create-wallet cases: one user owning one USD wallet. -/
def dbNine : Db := ⟨[uidA], [⟨widA, uidA, "USD", 0⟩], []⟩

/-- `dbNine` after successfully creating a GOLD wallet for the same user. -/
def dbNinePost : Db := ⟨[uidA], [⟨widA, uidA, "USD", 0⟩, ⟨widB, uidA, "GOLD", 0⟩], []⟩

/-- Characters with equal code points are equal. -/
theorem char_toNat_inj {a b : Char} (h : a.toNat = b.toNat) : a = b :=
  Char.eq_of_val_eq (UInt32.ext h)

/-- `lexLe` is total. -/
theorem lexLe_total : ∀ xs ys : List Char, lexLe xs ys = true ∨ lexLe ys xs = true
  | [], _ => Or.inl rfl
  | _ :: _, [] => Or.inr rfl
  | x :: xs, y :: ys => by
    rcases Nat.lt_trichotomy x.toNat y.toNat with h | h | h
    · left; simp [lexLe, h]
    · have hx : ¬ x.toNat < y.toNat := by omega
      have hy : ¬ y.toNat < x.toNat := by omega
      simpa [lexLe, hx, hy] using lexLe_total xs ys
    · right; simp [lexLe, h]

/-- `lexLe` is antisymmetric. -/
theorem lexLe_antisymm : ∀ xs ys : List Char,
    lexLe xs ys = true → lexLe ys xs = true → xs = ys
  | [], [], _, _ => rfl
  | [], _ :: _, _, h2 => by simp [lexLe] at h2
  | _ :: _, [], h1, _ => by simp [lexLe] at h1
  | x :: xs, y :: ys, h1, h2 => by
    rcases Nat.lt_trichotomy x.toNat y.toNat with h | h | h
    · simp [lexLe, h, Nat.lt_asymm h] at h2
    · have hx : ¬ x.toNat < y.toNat := by omega
      have hy : ¬ y.toNat < x.toNat := by omega
      simp only [lexLe, if_neg hx, if_neg hy] at h1
      simp only [lexLe, if_neg hy, if_neg hx] at h2
      rw [char_toNat_inj h, lexLe_antisymm xs ys h1 h2]
    · simp [lexLe, h, Nat.lt_asymm h] at h1


/-- C6: for distinct wallet ids `a` and `b`, the lock-acquisition list the
transfer handler builds (`[fromWalletId, toWalletId].sort()`) is the same
whichever wallet is labelled source, and it is in ascending identifier order. -/
theorem transfer_lock_order_symmetric (a b : String) (h : a ≠ b) :
    sortIds a b = sortIds b a ∧
      List.Chain' (fun x y : String => lexLe x.data y.data = true) (sortIds a b) := by
  rcases h1 : lexLe a.data b.data with _ | _ <;> rcases h2 : lexLe b.data a.data with _ | _
  · rcases lexLe_total a.data b.data with hc | hc
    · rw [h1] at hc; cases hc
    · rw [h2] at hc; cases hc
  · constructor
    · simp [sortIds, h1, h2]
    · simp [sortIds, h1, h2, List.chain'_cons]
  · constructor
    · simp [sortIds, h1, h2]
    · simp [sortIds, h1, h2, List.chain'_cons]
  · exfalso
    apply h
    have hd : a.data = b.data := lexLe_antisymm a.data b.data h1 h2
    cases a; cases b; cases hd; rfl

/-- C6 witness: the lock order at two concrete wallet ids. -/
theorem transfer_lock_order_symmetric_witness :
    sortIds widA widB = sortIds widB widA ∧
      List.Chain' (fun x y : String => lexLe x.data y.data = true) (sortIds widA widB) :=
  transfer_lock_order_symmetric widA widB (by decide)

set_option maxRecDepth 20000

set_option exponentiation.threshold 1100

/-- C1: a transfer of A = 0.00000001 from a wallet holding 1000000000.00000000
to one holding 0 (same currency) commits, credits the destination with A, but
leaves the source balance unchanged: `parseFloat`/binary64 arithmetic loses the
debit, so the committed state does not decrease the source by A. -/
theorem transfer_commits_without_debiting_source :
    (transfer dbBig (some widA) (some widB) (some ("0.00000001")) tidA tidB).toOption.map
        (fun db => db.wallets.map (fun w => w.balance)) =
      some [100000000000000000, 1] ∧
      (100000000000000000 : Int) ≠ 100000000000000000 - 1 := by
  decide

/-- C2: depositing 0.00000001 into a wallet holding 1000000000.00000000 commits
a balance equal to the old one, not the exact decimal sum (which is one
NUMERIC(18,8) quantum larger): the handler computes with binary64 floating
point, not fixed-point decimals. -/
theorem deposit_binary_float_drift :
    (deposit dbOne widA (some ("0.00000001")) tidA).toOption.map
        (fun db => db.wallets.map (fun w => w.balance)) =
      some [100000000000000000] ∧
      (100000000000000000 : Int) ≠ 100000000000000000 + 1 := by
  decide

/-- C4: withdrawing 0.00000001000000000000000000000001 from a wallet storing
0.00000001 commits (final balance 0) although the stored balance is strictly
below the requested amount — both below its exact decimal value and below the
binary64 value it parses to (`Frac.blt` compares exact values) — so the
handler does not fail with the insufficient-funds error the claim requires. -/
theorem withdraw_commits_despite_insufficient_balance :
    (withdraw dbTiny widA (some ("0.00000001000000000000000000000001")) tidA).toOption.map
        (fun db => db.wallets.map (fun w => w.balance)) = some [0] ∧
      parseFloatJS ("0.00000001000000000000000000000001") =
        .fin ⟨6044629098073146, 604462909807314587353088⟩ ∧
      Frac.blt ⟨1, 100000000⟩ ⟨6044629098073146, 604462909807314587353088⟩ = true := by
  decide

/-- C8: depositing A = 0.123456781 into an empty wallet and then withdrawing
the same A does not return the balance to its original value: the deposit
commits 0.12345678 (the 8-digit rounding of the binary64 sum), after which the
withdraw of A is rejected with the insufficient-balance error, so the second
transaction record is never appended and the balance stays at 0.12345678 ≠ 0. -/
theorem roundtrip_deposit_withdraw_fails :
    ((deposit dbZero widA (some ("0.123456781")) tidA).bind
        (fun db1 => withdraw db1 widA (some ("0.123456781")) tidB)) =
      .error ⟨400, "Insufficient balance"⟩ ∧
      (deposit dbZero widA (some ("0.123456781")) tidA).toOption.map
          (fun db => db.wallets.map (fun w => w.balance)) = some [12345678] ∧
      (12345678 : Int) ≠ 0 := by
  decide

/-- C10: amounts are parsed with `parseFloat`, so the non-numeric string
"12abc" is accepted as 12 (a deposit of "12abc" commits 12 units), while
strings parsing to NaN, to a non-positive value, or to an infinity are
rejected with the invalid-amount error. -/
theorem parseFloat_accepts_trailing_garbage :
    Frac.beqv ((parseFloatJS ("12abc")).toFrac) ⟨12, 1⟩ = true ∧
      isValidAmount (parseFloatJS ("12abc")) = true ∧
      (deposit dbZero widA (some ("12abc")) tidA).toOption.map
          (fun db => db.wallets.map (fun w => w.balance)) = some [1200000000] ∧
      isValidAmount (parseFloatJS ("abc")) = false ∧
      deposit dbZero widA (some ("abc")) tidA =
        .error ⟨400, "Amount must be a positive number"⟩ ∧
      isValidAmount (parseFloatJS ("-3")) = false ∧
      isValidAmount (parseFloatJS ("0")) = false ∧
      isValidAmount (parseFloatJS ("Infinity")) = false := by
  decide

/-- A string passing UUID validation is non-empty. -/
theorem isValidUUID_ne_empty {s : String} (h : isValidUUID s = true) : (s == "") = false := by
  by_cases hs : s = ""
  · subst hs; exact absurd h (by decide)
  · rw [beq_eq_false_iff_ne]; exact hs

/-- A validated amount is a finite value with positive numerator. -/
theorem isValidAmount_pos {n : JSNum} (h : isValidAmount n = true) : 0 < n.toFrac.num := by
  cases n with
  | fin q =>
    simp only [isValidAmount, decide_eq_true_eq] at h
    simpa [JSNum.toFrac] using h
  | nan => simp [isValidAmount] at h
  | posInf => simp [isValidAmount] at h
  | negInf => simp [isValidAmount] at h

/-- A balance accepted by the schema constraints is non-negative. -/
theorem numericOk_nonneg {b : Int} (h : numericOk b = true) : 0 ≤ b := by
  simp only [numericOk, Bool.and_eq_true, decide_eq_true_eq] at h
  exact h.1

/-- Updating one balance to a non-negative value preserves non-negativity of
all stored balances. -/
theorem walletsNonneg_setBalance {ws : List Wallet} {id : String} {nb : Int}
    (h : ws.all (fun w => 0 ≤ w.balance) = true) (hnb : 0 ≤ nb) :
    (setBalance ws id nb).all (fun w => 0 ≤ w.balance) = true := by
  rw [List.all_eq_true] at h ⊢
  intro w hw
  unfold setBalance at hw
  rcases List.mem_map.mp hw with ⟨w0, hw0, rfl⟩
  by_cases hid : (w0.id == id) = true
  · simpa [hid] using hnb
  · simpa [hid] using h w0 hw0

/-- A committed deposit writes exactly one schema-checked balance. -/
theorem deposit_ok_wallets {db : Db} {id : String} {amt : Option String} {tx : String} {db' : Db}
    (h : deposit db id amt tx = .ok db') :
    ∃ nb, numericOk nb = true ∧ db'.wallets = setBalance db.wallets id nb := by
  simp only [deposit] at h
  repeat' first
    | exact Except.noConfusion h
    | split at h
  · cases Except.ok.inj h
    rename_i hnum
    exact ⟨_, by simpa using hnum, rfl⟩

/-- A committed withdraw writes exactly one schema-checked balance. -/
theorem withdraw_ok_wallets {db : Db} {id : String} {amt : Option String} {tx : String} {db' : Db}
    (h : withdraw db id amt tx = .ok db') :
    ∃ nb, numericOk nb = true ∧ db'.wallets = setBalance db.wallets id nb := by
  simp only [withdraw] at h
  repeat' first
    | exact Except.noConfusion h
    | split at h
  · cases Except.ok.inj h
    rename_i hblt hnum
    exact ⟨_, by simpa using hnum, rfl⟩

/-- Shape of every committed transfer: a validated amount, two schema-checked
balance writes, and exactly the debit/credit pair appended to the ledger. -/
theorem transfer_ok_shape {db : Db} {f t s did cid : String} {db' : Db}
    (h : transfer db (some f) (some t) (some s) did cid = .ok db') :
    ∃ a nb1 nb2,
      a = (parseFloatJS s).toFrac ∧ isValidAmount (parseFloatJS s) = true ∧
      numericOk nb1 = true ∧ numericOk nb2 = true ∧
      db'.wallets = setBalance (setBalance db.wallets f nb1) t nb2 ∧
      db'.txns = db.txns ++
        [⟨did, f, "transfer_debit", a, "TRANSFER-" ++ substr8 did⟩,
         ⟨cid, t, "transfer_credit", a, "TRANSFER-" ++ substr8 did⟩] := by
  simp only [transfer] at h
  repeat' first
    | exact Except.noConfusion h
    | split at h
  · cases Except.ok.inj h
    rename_i hfalsy huuid hne hamt hlen dfw dtw fw tw hfw htw hcur hblt hnum1 hnum2
    exact ⟨_, _, _, rfl, by simpa using hamt, by simpa using hnum1, by simpa using hnum2,
      rfl, rfl⟩

/-- The withdraw handler rejects, before any write, a request whose parsed
amount exceeds the wallet's balance as read back through `parseFloat`. -/
theorem withdraw_insufficient_rejected (db : Db) (id s tx : String) (wallet : Wallet)
    (hid : isValidUUID id = true)
    (hamt : isValidAmount (parseFloatJS s) = true)
    (hfind : db.wallets.find? (fun w => w.id == id) = some wallet)
    (hblt : Frac.blt (balToDouble wallet.balance) (parseFloatJS s).toFrac = true) :
    withdraw db id (some s) tx = .error ⟨400, "Insufficient balance"⟩ := by
  simp only [withdraw, hid, hamt, hfind, hblt, Bool.not_true, Bool.false_eq_true,
    if_false, if_true]

/-- The `SELECT ... WHERE id = ANY($1) FOR UPDATE` row set of a transfer: for
two distinct ids both present, it has exactly two rows and resolves each id to
its wallet, in the deterministic `sortIds` lock order. -/
theorem rows_pair (db : Db) (f t : String) (fw tw : Wallet)
    (hfw : db.wallets.find? (fun w => w.id == f) = some fw)
    (htw : db.wallets.find? (fun w => w.id == t) = some tw)
    (hne : f ≠ t) :
    ((sortIds f t).filterMap (fun i => db.wallets.find? (fun w => w.id == i))).length = 2 ∧
      ((sortIds f t).filterMap (fun i => db.wallets.find? (fun w => w.id == i))).find?
        (fun w => w.id == f) = some fw ∧
      ((sortIds f t).filterMap (fun i => db.wallets.find? (fun w => w.id == i))).find?
        (fun w => w.id == t) = some tw := by
  have hfid : fw.id = f := by simpa using List.find?_some hfw
  have htid : tw.id = t := by simpa using List.find?_some htw
  have hffs : (fw.id == f) = true := by simp [hfid]
  have htts : (tw.id == t) = true := by simp [htid]
  have hfts : (fw.id == t) = false := by rw [beq_eq_false_iff_ne, hfid]; exact hne
  have htfs : (tw.id == f) = false := by
    rw [beq_eq_false_iff_ne, htid]
    exact fun hh => hne hh.symm
  by_cases hl : lexLe f.data t.data = true
  · have hs : sortIds f t = [f, t] := by simp [sortIds, hl]
    rw [hs]
    have hrows : List.filterMap (fun i => db.wallets.find? (fun w => w.id == i)) [f, t] =
        [fw, tw] := by
      simp [List.filterMap_cons, hfw, htw]
    rw [hrows]
    refine ⟨rfl, ?_, ?_⟩
    · simp [List.find?_cons, hffs]
    · simp [List.find?_cons, hfts, htts]
  · have hs : sortIds f t = [t, f] := by simp [sortIds, hl]
    rw [hs]
    have hrows : List.filterMap (fun i => db.wallets.find? (fun w => w.id == i)) [t, f] =
        [tw, fw] := by
      simp [List.filterMap_cons, hfw, htw]
    rw [hrows]
    refine ⟨rfl, ?_, ?_⟩
    · simp [List.find?_cons, htfs, hffs]
    · simp [List.find?_cons, htts]

/-- C7: a transfer between two existing wallets of differing currencies fails
with the currency-mismatch error.  In this embedding an `.error` result is the
rolled-back unit of work: no post-state is produced, so neither balance
changes and no transaction record is created. -/
theorem transfer_currency_mismatch (db : Db) (f t s did cid : String) (fw tw : Wallet)
    (hf : isValidUUID f = true) (ht : isValidUUID t = true) (hne : f ≠ t)
    (hamt : isValidAmount (parseFloatJS s) = true)
    (hfw : db.wallets.find? (fun w => w.id == f) = some fw)
    (htw : db.wallets.find? (fun w => w.id == t) = some tw)
    (hcur : fw.currency ≠ tw.currency) :
    transfer db (some f) (some t) (some s) did cid =
      .error ⟨400, "Cannot transfer between different currencies"⟩ := by
  obtain ⟨hlen, hrf, hrt⟩ := rows_pair db f t fw tw hfw htw hne
  have hf0 := isValidUUID_ne_empty hf
  have ht0 := isValidUUID_ne_empty ht
  have hne' : (f == t) = false := by rw [beq_eq_false_iff_ne]; exact hne
  have hcur' : (fw.currency != tw.currency) = true := by
    simp [bne, beq_eq_false_iff_ne, hcur]
  simp only [transfer, falsy, Option.getD, hf0, ht0, hf, ht, hne', hamt, hlen, hrf, hrt,
    hcur', Bool.or_self, Bool.not_true, Bool.false_eq_true, if_false, if_true,
    bne_self_eq_false]

/-- C7 witness: the spec scenario — transferring 10 from a 50 USD wallet to a
GOLD wallet fails with the currency-mismatch error. -/
theorem transfer_currency_mismatch_witness :
    transfer dbMix (some widA) (some widB) (some ("10")) tidA tidB =
      .error ⟨400, "Cannot transfer between different currencies"⟩ :=
  transfer_currency_mismatch dbMix widA widB ("10") tidA tidB
    ⟨widA, uidA, "USD", 5000000000⟩ ⟨widB, uidA, "GOLD", 0⟩
    (by decide) (by decide) (by decide) (by decide) (by decide) (by decide) (by decide)

/-- C5: every committed transfer appends exactly two transaction records — a
`transfer_debit` on the source wallet and a `transfer_credit` on the
destination — both carrying the same generated reference string (built from the
debit transaction id) and the identical positive amount. -/
theorem transfer_creates_debit_credit_pair (db : Db) (f t s did cid : String) (db' : Db)
    (h : transfer db (some f) (some t) (some s) did cid = .ok db') :
    ∃ a, 0 < a.num ∧
      db'.txns = db.txns ++
        [⟨did, f, "transfer_debit", a, "TRANSFER-" ++ substr8 did⟩,
         ⟨cid, t, "transfer_credit", a, "TRANSFER-" ++ substr8 did⟩] := by
  obtain ⟨a, nb1, nb2, rfl, hamt, _, _, _, htx⟩ := transfer_ok_shape h
  exact ⟨_, isValidAmount_pos hamt, htx⟩

/-- C5 witness: the committed transfer of 20 USD between the two concrete
wallets produces exactly the debit/credit pair with a shared reference. -/
theorem transfer_creates_debit_credit_pair_witness :
    ∃ a, 0 < a.num ∧
      dbPairPost.txns = dbPair.txns ++
        [⟨tidA, widA, "transfer_debit", a, "TRANSFER-" ++ substr8 tidA⟩,
         ⟨tidB, widC, "transfer_credit", a, "TRANSFER-" ++ substr8 tidA⟩] :=
  transfer_creates_debit_credit_pair dbPair widA widC ("20") tidA tidB dbPairPost (by decide)

/-- A string passing currency validation is non-empty. -/
theorem isValidCurrency_ne_empty {c : String} (h : isValidCurrency c = true) :
    (c == "") = false := by
  by_cases hc : c = ""
  · subst hc; exact absurd h (by decide)
  · rw [beq_eq_false_iff_ne]; exact hc

/-- C3: starting from a state whose stored balances are all non-negative, every
committed deposit, withdraw or transfer leaves all stored balances
non-negative (the schema `CHECK (balance >= 0)` guards every write), and the
withdraw handler rejects a request exceeding the balance with the
insufficient-balance error before any mutation (an `.error` result produces no
post-state). -/
theorem balances_stay_nonneg (db : Db) (hinv : walletsNonneg db = true) :
    (∀ id amt tx db', deposit db id amt tx = .ok db' → walletsNonneg db' = true) ∧
    (∀ id amt tx db', withdraw db id amt tx = .ok db' → walletsNonneg db' = true) ∧
    (∀ f t s did cid db', transfer db (some f) (some t) (some s) did cid = .ok db' →
      walletsNonneg db' = true) ∧
    (∀ id s tx wallet, isValidUUID id = true → isValidAmount (parseFloatJS s) = true →
      db.wallets.find? (fun w => w.id == id) = some wallet →
      Frac.blt (balToDouble wallet.balance) (parseFloatJS s).toFrac = true →
      withdraw db id (some s) tx = .error ⟨400, "Insufficient balance"⟩) := by
  unfold walletsNonneg at hinv
  refine ⟨?_, ?_, ?_, ?_⟩
  · intro id amt tx db' h
    obtain ⟨nb, hnb, hw⟩ := deposit_ok_wallets h
    unfold walletsNonneg
    rw [hw]
    exact walletsNonneg_setBalance hinv (numericOk_nonneg hnb)
  · intro id amt tx db' h
    obtain ⟨nb, hnb, hw⟩ := withdraw_ok_wallets h
    unfold walletsNonneg
    rw [hw]
    exact walletsNonneg_setBalance hinv (numericOk_nonneg hnb)
  · intro f t s did cid db' h
    obtain ⟨a, nb1, nb2, _, _, hn1, hn2, hw, _⟩ := transfer_ok_shape h
    unfold walletsNonneg
    rw [hw]
    exact walletsNonneg_setBalance (walletsNonneg_setBalance hinv (numericOk_nonneg hn1))
      (numericOk_nonneg hn2)
  · intro id s tx wallet hid hamt hfind hblt
    exact withdraw_insufficient_rejected db id s tx wallet hid hamt hfind hblt

/-- C3 witness: a committed withdraw of 10 from the 50/5 USD state keeps all
balances non-negative, and withdrawing 1000 from the 50 USD wallet is rejected
with the insufficient-balance error. -/
theorem balances_stay_nonneg_witness :
    walletsNonneg dbPairW = true ∧
      withdraw dbPair widA (some ("1000")) tidA = .error ⟨400, "Insufficient balance"⟩ :=
  ⟨(balances_stay_nonneg dbPair (by decide)).2.1 widA (some ("10")) tidA dbPairW (by decide),
   (balances_stay_nonneg dbPair (by decide)).2.2.2 widA ("1000") tidA
     ⟨widA, uidA, "USD", 5000000000⟩ (by decide) (by decide) (by decide) (by decide)⟩

/-- C9: creating a wallet fails with 400 for a currency outside {USD, GOLD},
with 404 when the user does not exist, with 409 when the user already has a
wallet of that currency, and any successful creation appends exactly one
wallet with balance initialised to zero. -/
theorem createWallet_cases (db : Db) (u c wid : String) :
    (isValidUUID u = true → c ≠ "" → isValidCurrency c = false →
      createWallet db (some u) (some c) wid =
        .error ⟨400, "Currency must be USD or GOLD"⟩) ∧
    (isValidUUID u = true → isValidCurrency c = true → db.users.contains u = false →
      createWallet db (some u) (some c) wid = .error ⟨404, "User not found"⟩) ∧
    (isValidUUID u = true → isValidCurrency c = true → db.users.contains u = true →
      db.wallets.any (fun w => w.userId == u && w.currency == c) = true →
      createWallet db (some u) (some c) wid =
        .error ⟨409, "User already has a " ++ c ++ " wallet"⟩) ∧
    (∀ db', createWallet db (some u) (some c) wid = .ok db' →
      db'.wallets = db.wallets ++ [⟨wid, u, c, 0⟩]) := by
  refine ⟨?_, ?_, ?_, ?_⟩
  · intro hu hc0 hcv
    have hu0 := isValidUUID_ne_empty hu
    have hc0' : (c == "") = false := by rw [beq_eq_false_iff_ne]; exact hc0
    simp only [createWallet, falsy, Option.getD, hu0, hu, hc0', hcv, Bool.not_true,
      Bool.not_false, Bool.false_eq_true, if_false, if_true]
  · intro hu hcv hus
    have hu0 := isValidUUID_ne_empty hu
    have hc0' := isValidCurrency_ne_empty hcv
    simp only [createWallet, falsy, Option.getD, hu0, hu, hc0', hcv, hus, Bool.not_true,
      Bool.not_false, Bool.false_eq_true, if_false, if_true]
  · intro hu hcv hus hany
    have hu0 := isValidUUID_ne_empty hu
    have hc0' := isValidCurrency_ne_empty hcv
    simp only [createWallet, falsy, Option.getD, hu0, hu, hc0', hcv, hus, hany,
      Bool.not_true, Bool.not_false, Bool.false_eq_true, if_false, if_true]
  · intro db' h
    simp only [createWallet] at h
    repeat' first
      | exact Except.noConfusion h
      | split at h
    · cases Except.ok.inj h
      rfl

/-- C9 witness: the three failure cases and a successful zero-balance creation
at concrete inputs. -/
theorem createWallet_cases_witness :
    createWallet dbNine (some uidA) (some ("EUR")) widB =
        .error ⟨400, "Currency must be USD or GOLD"⟩ ∧
      createWallet dbNine (some uidB) (some ("USD")) widB =
        .error ⟨404, "User not found"⟩ ∧
      createWallet dbNine (some uidA) (some ("USD")) widB =
        .error ⟨409, "User already has a USD wallet"⟩ ∧
      dbNinePost.wallets = dbNine.wallets ++ [⟨widB, uidA, "GOLD", 0⟩] :=
  ⟨(createWallet_cases dbNine uidA ("EUR") widB).1 (by decide) (by decide) (by decide),
   (createWallet_cases dbNine uidB ("USD") widB).2.1 (by decide) (by decide) (by decide),
   (createWallet_cases dbNine uidA ("USD") widB).2.2.1 (by decide) (by decide) (by decide)
     (by decide),
   (createWallet_cases dbNine uidA ("GOLD") widB).2.2.2 dbNinePost (by decide)⟩
